import Mathlib

/-!
Verification of the welcome-screen resource model
(`src/discord/welcome_screen.py`).

Shallow embedding conventions:
* A wire-payload field that may be missing from the dictionary is an
  `Option (Option α)`: `none` means the key is absent, `some none` means the
  key is present with a JSON `null` value, `some (some v)` means the key is
  present with value `v`.
* Python exceptions are modelled with `Except PyError`.
* The guild object, the channel/emoji lookups and the snowflake accessor are
  collaborators that live outside `src/`; they are modelled from the spec's
  collaborator interfaces (§6) and marked as such.
-/

instance {ε α : Type _} [DecidableEq ε] [DecidableEq α] : DecidableEq (Except ε α) := fun a b =>
  match a, b with
  | Except.error x, Except.error y =>
    if h : x = y then isTrue (congrArg Except.error h)
    else isFalse (fun hc => h (Except.error.inj hc))
  | Except.ok x, Except.ok y =>
    if h : x = y then isTrue (congrArg Except.ok h)
    else isFalse (fun hc => h (Except.ok.inj hc))
  | Except.error _, Except.ok _ => isFalse (fun hc => Except.noConfusion hc)
  | Except.ok _, Except.error _ => isFalse (fun hc => Except.noConfusion hc)

/-- Python-level exceptions that the welcome-screen code can raise. -/
inductive PyError where
  | keyError
  | attributeError
  | typeError
  | invalidArgument
deriving DecidableEq, Repr

/-- A guild channel; only its snowflake id matters to this module. -/
structure Channel where
  id : Nat
deriving DecidableEq, Repr

/-- A custom emoji owned by a guild: a snowflake id and a name. -/
structure Emoji where
  id : Nat
  name : String
deriving DecidableEq, Repr

/-- Modelled from the spec: the guild context consumed by this module —
`getChannel(id) → channel|absent`, an `emojis` lookup-by-id collection,
a `features` set of string flags, and an `id`.  The guild class itself is
not under `src/`. -/
structure Guild where
  id : Nat
  channels : List Channel
  emojis : List Emoji
  features : List String
deriving DecidableEq, Repr

/-- Modelled from the spec: `guildContext`'s channel lookup, which "may yield
not found".  A `none` identifier (absent/null `channel_id`) resolves to
absent, otherwise the guild's channel with that id is returned when it
exists. -/
def Guild.get_channel (g : Guild) (cid : Option Nat) : Option Channel :=
  match cid with
  | none => none
  | some i => g.channels.find? (fun c => c.id == i)

/-- Modelled from the spec: lookup-by-id in the guild's custom-emoji
collection (`utils.get(guild.emojis, id=...)`; the utils module is not under
`src/`): the first emoji carrying the given id, or absent. -/
def utils_get (emojis : List Emoji) (eid : Nat) : Option Emoji :=
  emojis.find? (fun e => e.id == eid)

/-- Modelled from the spec: the snowflake accessor `_get_as_snowflake`
(utils module, not under `src/`): an absent or null field yields absent, a
numeric value yields that id. -/
def _get_as_snowflake (field : Option (Option Nat)) : Option Nat :=
  match field with
  | some (some v) => some v
  | _ => none

/-- Wire shape `WelcomeScreenChannelPayload`: the four fields of one
welcome-channel row.  `description` is a required string (the code indexes
it directly); the other fields use the absent / null / value encoding. -/
structure WelcomeScreenChannelPayload where
  channel_id : Option (Option Nat)
  description : String
  emoji_id : Option (Option Nat)
  emoji_name : Option (Option String)
deriving DecidableEq, Repr

/-- The in-memory `emoji` attribute of a `WelcomeChannel`: Python's
`None`, a literal unicode string, or a custom-emoji object
(`PartialEmoji`/`Emoji`, i.e. anything tagged `_EmojiTag`). -/
inductive EmojiValue where
  | noEmoji
  | unicode (s : String)
  | custom (e : Emoji)
deriving DecidableEq, Repr

/-- Python `emoji = _emoji_name`: a present-null name gives no emoji, a
string gives a literal unicode emoji. -/
def emojiFromName : Option String → EmojiValue
  | some s => EmojiValue.unicode s
  | none => EmojiValue.noEmoji

/-- `WelcomeChannel`: one row of the welcome screen.  `channel` is an
`Option` because the hydration path stores the (possibly failed) result of
`guild.get_channel` directly. -/
structure WelcomeChannel where
  channel : Option Channel
  description : String
  emoji : EmojiValue
deriving DecidableEq, Repr

/-- `WelcomeChannel._from_dict(data=..., guild=...)`
(`welcome_screen.py` lines 73–88).  `data['emoji_name']` is a direct index:
an absent `emoji_name` key raises `KeyError`.  `if _emoji_id:` is Python
truthiness: the custom-emoji branch is taken only for a present, non-null,
nonzero `emoji_id`. -/
def WelcomeChannel._from_dict (data : WelcomeScreenChannelPayload) (guild : Guild) :
    Except PyError WelcomeChannel :=
  let channel_id := _get_as_snowflake data.channel_id
  let channel := guild.get_channel channel_id
  let description := data.description
  let _emoji_id := _get_as_snowflake data.emoji_id
  match data.emoji_name with
  | none => Except.error PyError.keyError
  | some _emoji_name =>
    let emoji : EmojiValue :=
      match _emoji_id with
      | some eid =>
        if eid == 0 then
          emojiFromName _emoji_name
        else
          match utils_get guild.emojis eid with
          | some e => EmojiValue.custom e
          | none => EmojiValue.noEmoji
      | none => emojiFromName _emoji_name
    Except.ok { channel := channel, description := description, emoji := emoji }

/-- `WelcomeChannel.to_dict()` (`welcome_screen.py` lines 90–105).
`self.channel.id` raises `AttributeError` when `channel` is absent (Python
`None`); otherwise all four wire keys are emitted, the emoji keys starting
as null and being overwritten according to the in-memory emoji. -/
def WelcomeChannel.to_dict (wc : WelcomeChannel) :
    Except PyError WelcomeScreenChannelPayload :=
  match wc.channel with
  | none => Except.error PyError.attributeError
  | some ch =>
    let ret : WelcomeScreenChannelPayload :=
      { channel_id := some (some ch.id), description := wc.description,
        emoji_id := some none, emoji_name := some none }
    match wc.emoji with
    | EmojiValue.custom e =>
        Except.ok { ret with emoji_id := some (some e.id), emoji_name := some (some e.name) }
    | EmojiValue.unicode s =>
        Except.ok { ret with emoji_name := some (some s) }
    | EmojiValue.noEmoji =>
        Except.ok { ret with emoji_name := some none }

/-- Wire shape `WelcomeScreenPayload`: a required `description` and an
optional `welcome_channels` list (the code reads it with
`data.get('welcome_channels', [])`). -/
structure WelcomeScreenPayload where
  description : String
  welcome_channels : Option (List WelcomeScreenChannelPayload)
deriving DecidableEq, Repr

/-- The `WelcomeScreen` object's mutable state: the guild back-reference and
the two stored attributes (`enabled` is derived, never stored). -/
structure WelcomeScreen where
  _guild : Guild
  description : String
  welcome_channels : List WelcomeChannel
deriving DecidableEq, Repr

/-- The list comprehension of `_store` (`welcome_screen.py` line 129):
each payload element is hydrated left to right; the first exception aborts
the whole comprehension. -/
def hydrateChannels (guild : Guild) :
    List WelcomeScreenChannelPayload → Except PyError (List WelcomeChannel)
  | [] => Except.ok []
  | wc :: rest =>
    match WelcomeChannel._from_dict wc guild with
    | Except.error e => Except.error e
    | Except.ok entry =>
      match hydrateChannels guild rest with
      | Except.error e => Except.error e
      | Except.ok l => Except.ok (entry :: l)

/-- `WelcomeScreen._store(data)` (`welcome_screen.py` lines 126–129).
`self.description` is assigned first; if hydrating the channel list raises,
the screen is left with the new description and the old channel list — the
second component reports the raised exception. -/
def WelcomeScreen._store (ws : WelcomeScreen) (data : WelcomeScreenPayload) :
    WelcomeScreen × Option PyError :=
  let description := data.description
  let welcome_channels := data.welcome_channels.getD []
  match hydrateChannels ws._guild welcome_channels with
  | Except.ok l =>
      ({ ws with description := description, welcome_channels := l }, none)
  | Except.error e =>
      ({ ws with description := description }, some e)

/-- `WelcomeScreen.enabled` (`welcome_screen.py` lines 134–141): membership
of the literal flag in the live guild's feature list, recomputed at every
read. -/
def WelcomeScreen.enabled (ws : WelcomeScreen) : Bool :=
  ws._guild.features.contains "WELCOME_SCREEN_ENABLED"

/-- Replacing the owning guild's feature list in place: the screen holds a
reference to the guild object, so mutating the guild's `features` is
observed by the screen without touching its own attributes. -/
def Guild.setFeatures (g : Guild) (f : List String) : Guild :=
  { g with features := f }

/-- The screen as seen after the referenced guild's features were mutated
(the resource itself untouched). -/
def WelcomeScreen.withGuildFeatures (ws : WelcomeScreen) (f : List String) : WelcomeScreen :=
  { ws with _guild := ws._guild.setFeatures f }

/-- An element of the `welcome_channels` list passed to `edit`: either a
genuine `WelcomeChannel` instance or some other Python object (failing the
`isinstance` check), distinguished by an arbitrary tag. -/
inductive EditListElem where
  | entry (wc : WelcomeChannel)
  | notEntry (tag : Nat)
deriving DecidableEq, Repr

/-- The keyword-argument dictionary received by `edit(self, **kwargs)`.
Each recognized key uses the absent / explicit-`None` / value encoding;
`extra` holds the names of any unrecognized keyword arguments, which Python
accepts and forwards untouched. -/
structure EditKwargs where
  description : Option (Option String) := none
  welcome_channels : Option (Option (List EditListElem)) := none
  enabled : Option (Option Bool) := none
  extra : List String := []
deriving DecidableEq, Repr

/-- Python truthiness of the kwargs dict (`if kwargs:`): the dict is empty
iff no key at all is present. -/
def EditKwargs.isEmpty (k : EditKwargs) : Bool :=
  k.description.isNone && k.welcome_channels.isNone && k.enabled.isNone && k.extra.isEmpty

/-- The body handed to `http.edit_welcome_screen`: the kwargs dict after
`welcome_channels` (when present) has been replaced by its serialised
form. -/
structure EditRequest where
  description : Option (Option String)
  welcome_channels : Option (List WelcomeScreenChannelPayload)
  enabled : Option (Option Bool)
  extra : List String
deriving DecidableEq, Repr

/-- Transport-level failures of `edit_welcome_screen`
(`Forbidden`, `NotFound`, `HTTPException`). -/
inductive TransportError where
  | forbidden
  | notFound
  | httpException
deriving DecidableEq, Repr

/-- Any exception escaping `edit`: a local Python error or a propagated
transport error. -/
inductive EditError where
  | py (e : PyError)
  | transport (e : TransportError)
deriving DecidableEq, Repr

/-- The external transport: `state.http.edit_welcome_screen(guild_id, body)`
returning the authoritative `WelcomeScreenPayload` or failing. -/
def Http : Type :=
  Nat → EditRequest → Except TransportError WelcomeScreenPayload

/-- The serialisation loop of `edit` (`welcome_screen.py` lines 207–211):
each element is isinstance-checked and then serialised immediately, so an
`AttributeError` from `to_dict` on an earlier element preempts the
`InvalidArgument` for a later non-entry element. -/
def serialiseWelcomeChannels :
    List EditListElem → Except PyError (List WelcomeScreenChannelPayload)
  | [] => Except.ok []
  | EditListElem.notEntry _ :: _ => Except.error PyError.invalidArgument
  | EditListElem.entry wc :: rest =>
    match wc.to_dict with
    | Except.error e => Except.error e
    | Except.ok d =>
      match serialiseWelcomeChannels rest with
      | Except.error e => Except.error e
      | Except.ok ds => Except.ok (d :: ds)

/-- The tail of `edit` (`welcome_screen.py` lines 214–216): `if kwargs:`
guards the single network call; on success the response re-hydrates the
screen through `_store`.  Returns the final screen state, the escaping
exception when one is raised, and the list of issued requests. -/
def buildRequest (kwargs : EditKwargs)
    (ser : Option (List WelcomeScreenChannelPayload)) : EditRequest :=
  { description := kwargs.description, welcome_channels := ser,
    enabled := kwargs.enabled, extra := kwargs.extra }

def WelcomeScreen.sendPhase (ws : WelcomeScreen) (kwargs : EditKwargs)
    (ser : Option (List WelcomeScreenChannelPayload)) (http : Http) :
    WelcomeScreen × Option EditError × List EditRequest :=
  if kwargs.isEmpty then
    (ws, none, [])
  else
    match http ws._guild.id (buildRequest kwargs ser) with
    | Except.error te => (ws, some (EditError.transport te), [buildRequest kwargs ser])
    | Except.ok data =>
      match ws._store data with
      | (ws2, none) => (ws2, none, [buildRequest kwargs ser])
      | (ws2, some e) => (ws2, some (EditError.py e), [buildRequest kwargs ser])

/-- `WelcomeScreen.edit(**kwargs)` (`welcome_screen.py` lines 157–216).
The `try: kwargs['welcome_channels']` probe comes first: an absent key is
passed over, an explicit `None` value raises `TypeError` when the `for`
loop iterates it, and a list is serialised element by element (possibly
raising) before the network phase. -/
def WelcomeScreen.edit (ws : WelcomeScreen) (kwargs : EditKwargs) (http : Http) :
    WelcomeScreen × Option EditError × List EditRequest :=
  match kwargs.welcome_channels with
  | none => ws.sendPhase kwargs none http
  | some none => (ws, some (EditError.py PyError.typeError), [])
  | some (some lst) =>
    match serialiseWelcomeChannels lst with
    | Except.error e => (ws, some (EditError.py e), [])
    | Except.ok ser => ws.sendPhase kwargs (some ser) http

/-- A sample guild used by witnesses and counterexamples: one channel, one
custom emoji, one feature flag. -/
def g0 : Guild :=
  { id := 1, channels := [{ id := 1 }], emojis := [{ id := 5, name := "smile" }],
    features := ["COMMUNITY", "WELCOME_SCREEN_ENABLED"] }

/-- A sample welcome screen over `g0`. -/
def ws0 : WelcomeScreen :=
  { _guild := g0, description := "old", welcome_channels := [] }

/-- A transport that always fails with a generic request error. -/
def httpFail : Http := fun _ _ => Except.error TransportError.httpException

/-- A sample hydration payload with one well-formed channel row. -/
def data0 : WelcomeScreenPayload :=
  { description := "screen",
    welcome_channels :=
      some [{ channel_id := some (some 1), description := "chan",
              emoji_id := none, emoji_name := some none }] }

/-- The request body that `edit` builds from the kwargs
`description="x"` alone. -/
def req0 : EditRequest :=
  { description := some (some "x"), welcome_channels := none, enabled := none, extra := [] }

theorem utils_get_of_mem (l : List Emoji) (eid : Nat) (h : ∃ e ∈ l, e.id = eid) :
    ∃ e, utils_get l eid = some e ∧ e.id = eid := by
  induction l with
  | nil => simp at h
  | cons a t ih =>
    by_cases ha : a.id = eid
    · refine ⟨a, ?_, ha⟩
      simp [utils_get, List.find?_cons, ha]
    · have hne : (a.id == eid) = false := by simp [ha]
      obtain ⟨e, he, hid⟩ := h
      rcases List.mem_cons.mp he with heq | hmem
      · exact absurd (heq ▸ hid) ha
      · obtain ⟨e', hfind, hid'⟩ := ih ⟨e, hmem, hid⟩
        refine ⟨e', ?_, hid'⟩
        simpa [utils_get, List.find?_cons, hne] using hfind

theorem get_channel_id (g : Guild) (cid : Nat) (ch : Channel)
    (h : g.get_channel (some cid) = some ch) : ch.id = cid := by
  unfold Guild.get_channel at h
  have := List.find?_some h
  simpa using this

theorem to_dict_shape (wc : WelcomeChannel) (ch : Channel) (h : wc.channel = some ch) :
    ∃ q, wc.to_dict = Except.ok q ∧ q.channel_id = some (some ch.id) ∧
      q.description = wc.description ∧ q.emoji_id.isSome = true ∧
      q.emoji_name.isSome = true := by
  cases wc with
  | mk c d em =>
    have h' : c = some ch := h
    subst h'
    cases em with
    | noEmoji => exact ⟨_, rfl, rfl, rfl, rfl, rfl⟩
    | unicode s => exact ⟨_, rfl, rfl, rfl, rfl, rfl⟩
    | custom e => exact ⟨_, rfl, rfl, rfl, rfl, rfl⟩

/-- C6: (amended) Hydration tolerates an absent or null `emoji_id` together
with a present-but-null `emoji_name`: `_from_dict` then succeeds and the
entry's emoji is absent.  The claim's stronger case — the `emoji_name` key
itself absent — instead raises `KeyError` (see the counterexample), because
the code indexes `data['emoji_name']` directly. -/
theorem from_dict_null_emoji_amended
    (p : WelcomeScreenChannelPayload) (guild : Guild)
    (hid : _get_as_snowflake p.emoji_id = none)
    (hname : p.emoji_name = some none) :
    ∃ wc, WelcomeChannel._from_dict p guild = Except.ok wc ∧
      wc.emoji = EmojiValue.noEmoji := by
  cases p with
  | mk pc pd pe pn =>
    have h1 : pn = some none := hname
    subst h1
    have h2 : _get_as_snowflake pe = none := hid
    refine ⟨⟨guild.get_channel (_get_as_snowflake pc), pd, EmojiValue.noEmoji⟩, ?_, rfl⟩
    simp [WelcomeChannel._from_dict, h2, emojiFromName]

theorem from_dict_null_emoji_amended_witness :
    ∃ wc, WelcomeChannel._from_dict
      { channel_id := some (some 1), description := "d",
        emoji_id := some none, emoji_name := some none } g0
      = Except.ok wc ∧ wc.emoji = EmojiValue.noEmoji :=
  from_dict_null_emoji_amended _ g0 rfl rfl

/-- C6 counterexample: a payload with both emoji keys absent — valid per the
declared wire shape, which marks both optional — makes `_from_dict` raise
`KeyError` instead of succeeding with an absent emoji. -/
theorem from_dict_absent_emoji_name_raises :
    WelcomeChannel._from_dict
      { channel_id := some (some 1), description := "d",
        emoji_id := none, emoji_name := none } g0
      = Except.error PyError.keyError := rfl

/-- C7: (amended) `to_dict` succeeds and emits all four wire fields for
every entry whose channel reference is present; an entry whose channel
lookup failed at hydration time instead raises `AttributeError` when
`self.channel.id` is read (see the counterexample). -/
theorem to_dict_total_on_present_channel (wc : WelcomeChannel) (ch : Channel)
    (h : wc.channel = some ch) :
    ∃ q, wc.to_dict = Except.ok q ∧ q.channel_id.isSome = true ∧
      q.description = wc.description ∧ q.emoji_id.isSome = true ∧
      q.emoji_name.isSome = true := by
  obtain ⟨q, hq, hc, hd, he1, he2⟩ := to_dict_shape wc ch h
  exact ⟨q, hq, by rw [hc]; rfl, hd, he1, he2⟩

theorem to_dict_total_on_present_channel_witness :
    ∃ q, WelcomeChannel.to_dict
      { channel := some { id := 1 }, description := "d", emoji := EmojiValue.unicode "x" }
      = Except.ok q ∧ q.channel_id.isSome = true ∧ q.description = "d" ∧
      q.emoji_id.isSome = true ∧ q.emoji_name.isSome = true :=
  to_dict_total_on_present_channel _ { id := 1 } rfl

/-- C7 counterexample: a payload whose `channel_id` does not resolve in the
guild context hydrates (without error) to an entry with an absent channel,
and `to_dict` on that very entry raises `AttributeError` rather than
succeeding. -/
theorem to_dict_raises_on_absent_channel :
    WelcomeChannel._from_dict
      { channel_id := some (some 99), description := "gone",
        emoji_id := none, emoji_name := some none } g0
      = Except.ok { channel := none, description := "gone", emoji := EmojiValue.noEmoji } ∧
    WelcomeChannel.to_dict
      { channel := none, description := "gone", emoji := EmojiValue.noEmoji }
      = Except.error PyError.attributeError :=
  ⟨rfl, rfl⟩

/-- C2: (amended) For a payload whose `emoji_name` key is present and whose
`emoji_id` is present, non-null and nonzero, hydration sets the entry's
emoji to the custom emoji with that id from the guild's registry — absent
when no registry entry matches — and never to the literal `emoji_name`
value.  (With the `emoji_name` key absent, `_from_dict` raises `KeyError`
before the lookup, see the counterexample; a zero `emoji_id` is falsy in
Python and takes the literal-name branch.) -/
theorem from_dict_emoji_disambiguation_amended
    (p : WelcomeScreenChannelPayload) (guild : Guild) (eid : Nat) (en : Option String)
    (hname : p.emoji_name = some en)
    (hid : p.emoji_id = some (some eid)) (hpos : eid ≠ 0) :
    ∃ wc, WelcomeChannel._from_dict p guild = Except.ok wc ∧
      wc.emoji = (match utils_get guild.emojis eid with
                  | some e => EmojiValue.custom e
                  | none => EmojiValue.noEmoji) ∧
      ∀ s, wc.emoji ≠ EmojiValue.unicode s := by
  cases p with
  | mk pc pd pe pn =>
    have h1 : pn = some en := hname
    have h2 : pe = some (some eid) := hid
    subst h1; subst h2
    have hz : (eid == 0) = false := by simpa using hpos
    cases hu : utils_get guild.emojis eid with
    | some e =>
      refine ⟨⟨guild.get_channel (_get_as_snowflake pc), pd, EmojiValue.custom e⟩, ?_, ?_, ?_⟩
      · simp [WelcomeChannel._from_dict, _get_as_snowflake, hz, hu]
      · simp [hu]
      · intro s; simp
    | none =>
      refine ⟨⟨guild.get_channel (_get_as_snowflake pc), pd, EmojiValue.noEmoji⟩, ?_, ?_, ?_⟩
      · simp [WelcomeChannel._from_dict, _get_as_snowflake, hz, hu]
      · simp [hu]
      · intro s; simp

theorem from_dict_emoji_disambiguation_amended_witness :
    ∃ wc, WelcomeChannel._from_dict
      { channel_id := some (some 1), description := "d",
        emoji_id := some (some 5), emoji_name := some (some "x") } g0
      = Except.ok wc ∧
      wc.emoji = (match utils_get g0.emojis 5 with
                  | some e => EmojiValue.custom e
                  | none => EmojiValue.noEmoji) ∧
      ∀ s, wc.emoji ≠ EmojiValue.unicode s :=
  from_dict_emoji_disambiguation_amended _ g0 5 (some "x") rfl rfl (by decide)

/-- C2 counterexample: a payload with a present, non-null `emoji_id` but no
`emoji_name` key makes `_from_dict` raise `KeyError`; no entry carrying the
registry emoji is produced, contradicting the claim's "for every payload
whose emoji_id field is present and non-null". -/
theorem emoji_disambiguation_fails_on_absent_emoji_name :
    WelcomeChannel._from_dict
      { channel_id := some (some 1), description := "d",
        emoji_id := some (some 5), emoji_name := none } g0
      = Except.error PyError.keyError := rfl

theorem hydrateChannels_spec (guild : Guild) (l : List WelcomeScreenChannelPayload)
    (r : List WelcomeChannel) (h : hydrateChannels guild l = Except.ok r) :
    r.length = l.length ∧
    ∀ i (h1 : i < l.length) (h2 : i < r.length),
      WelcomeChannel._from_dict (l.get ⟨i, h1⟩) guild = Except.ok (r.get ⟨i, h2⟩) := by
  induction l generalizing r with
  | nil =>
    simp [hydrateChannels] at h
    subst h
    exact ⟨rfl, fun i h1 _ => absurd h1 (Nat.not_lt_zero i)⟩
  | cons a t ih =>
    cases hd : WelcomeChannel._from_dict a guild with
    | error e => simp [hydrateChannels, hd] at h
    | ok entry =>
      cases ht : hydrateChannels guild t with
      | error e => simp [hydrateChannels, hd, ht] at h
      | ok tl =>
        simp [hydrateChannels, hd, ht] at h
        subst h
        obtain ⟨hl, hg⟩ := ih tl ht
        refine ⟨by simp [hl], ?_⟩
        intro i h1 h2
        cases i with
        | zero => simpa using hd
        | succ n =>
          have h1' : n < t.length := by simpa using h1
          have h2' : n < tl.length := by simpa using h2
          simpa using hg n h1' h2'

/-- C8: `_store` sets `description` from the payload and, when hydration of
every element succeeds, rebuilds `welcome_channels` by mapping
`_from_dict` over the payload's list in order and with the same length,
against the unchanged guild reference; an absent `welcome_channels` key
yields the empty list. -/
theorem store_order_preservation (ws ws' : WelcomeScreen) (data : WelcomeScreenPayload)
    (h : ws._store data = (ws', none)) :
    ws'.description = data.description ∧ ws'._guild = ws._guild ∧
    ws'.welcome_channels.length = (data.welcome_channels.getD []).length ∧
    (∀ i (h1 : i < (data.welcome_channels.getD []).length)
       (h2 : i < ws'.welcome_channels.length),
      WelcomeChannel._from_dict ((data.welcome_channels.getD []).get ⟨i, h1⟩) ws._guild
        = Except.ok (ws'.welcome_channels.get ⟨i, h2⟩)) ∧
    (data.welcome_channels = none → ws'.welcome_channels = []) := by
  cases hh : hydrateChannels ws._guild (data.welcome_channels.getD []) with
  | error e =>
    simp only [WelcomeScreen._store, hh] at h
    simp at h
  | ok l =>
    simp only [WelcomeScreen._store, hh] at h
    simp at h
    subst h
    obtain ⟨hl, hg⟩ := hydrateChannels_spec ws._guild (data.welcome_channels.getD []) l hh
    refine ⟨rfl, rfl, hl, hg, ?_⟩
    intro hn
    rw [hn] at hh
    simp [hydrateChannels] at hh
    exact hh

theorem store_order_preservation_witness :
    (ws0._store data0).1.description = data0.description ∧
    (ws0._store data0).1.welcome_channels.length
      = (data0.welcome_channels.getD []).length := by
  have h := store_order_preservation ws0 (ws0._store data0).1 data0 rfl
  exact ⟨h.1, h.2.2.1⟩

/-- C9: `enabled` is true iff the welcome-screen flag sits in the owning
guild's current feature list, and replacing the referenced guild's
features — without touching the resource — flips the next read
accordingly, leaving the stored `description` and `welcome_channels`
untouched: the value is recomputed live, never cached. -/
theorem enabled_live_feature_set (ws : WelcomeScreen) (f : List String) :
    (ws.enabled = true ↔ "WELCOME_SCREEN_ENABLED" ∈ ws._guild.features) ∧
    ((ws.withGuildFeatures f).enabled = true ↔ "WELCOME_SCREEN_ENABLED" ∈ f) ∧
    (ws.withGuildFeatures f).description = ws.description ∧
    (ws.withGuildFeatures f).welcome_channels = ws.welcome_channels := by
  refine ⟨List.elem_iff, ?_, rfl, rfl⟩
  exact List.elem_iff

/-- C10: calling `edit` with `welcome_channels` explicitly `None` — a value
the declared `Optional[List[WelcomeChannel]]` type admits — raises
`TypeError` from iterating `None` (not `InvalidArgument`), issues zero
network calls, and leaves the screen unchanged, whatever the other
keyword arguments are. -/
theorem edit_none_welcome_channels_type_error (ws : WelcomeScreen) (http : Http)
    (d : Option (Option String)) (en : Option (Option Bool)) (ex : List String) :
    ws.edit { description := d, welcome_channels := some none,
              enabled := en, extra := ex } http
      = (ws, some (EditError.py PyError.typeError), []) ∧
    EditError.py PyError.typeError ≠ EditError.py PyError.invalidArgument :=
  ⟨rfl, by decide⟩

/-- C3: (amended) `edit` with an empty keyword set issues zero network
calls and leaves the screen unchanged.  The claim's broader form — any
changes dict with no recognized field — fails on the code: `if kwargs:`
tests dict non-emptiness, so unrecognized keyword arguments alone do
trigger a network call (see the counterexample). -/
theorem edit_empty_kwargs_noop (ws : WelcomeScreen) (kwargs : EditKwargs) (http : Http)
    (h : kwargs.isEmpty = true) :
    ws.edit kwargs http = (ws, none, []) := by
  have hwc : kwargs.welcome_channels = none := by
    cases hw : kwargs.welcome_channels with
    | none => rfl
    | some v => simp [EditKwargs.isEmpty, hw] at h
  simp [WelcomeScreen.edit, hwc, WelcomeScreen.sendPhase, h]

theorem edit_empty_kwargs_noop_witness :
    EditKwargs.isEmpty {} = true ∧ WelcomeScreen.edit ws0 {} httpFail = (ws0, none, []) :=
  ⟨rfl, edit_empty_kwargs_noop ws0 {} httpFail rfl⟩

/-- C3 counterexample: a changes dict holding only the unrecognized key
`"nonce"` — none of description, welcome_channels, enabled present — still
issues one network call, because `if kwargs:` only tests dict
non-emptiness. -/
theorem edit_unrecognized_field_issues_call :
    (WelcomeScreen.edit ws0 { extra := ["nonce"] } httpFail).2.2.length = 1 := rfl

theorem serialiseWelcomeChannels_invalid (lst : List EditListElem)
    (hbad : ∃ t, EditListElem.notEntry t ∈ lst)
    (hok : ∀ wc, EditListElem.entry wc ∈ lst → (wc.channel).isSome = true) :
    serialiseWelcomeChannels lst = Except.error PyError.invalidArgument := by
  induction lst with
  | nil =>
    obtain ⟨t, ht⟩ := hbad
    simp at ht
  | cons a rest ih =>
    cases a with
    | notEntry t => rfl
    | entry wc =>
      have hch : (wc.channel).isSome = true := hok wc (List.mem_cons_self _ _)
      obtain ⟨ch, hcheq⟩ := Option.isSome_iff_exists.mp hch
      obtain ⟨q, hq, -, -, -, -⟩ := to_dict_shape wc ch hcheq
      have hrest : serialiseWelcomeChannels rest = Except.error PyError.invalidArgument := by
        apply ih
        · obtain ⟨t, ht⟩ := hbad
          rcases List.mem_cons.mp ht with heq | hmem
          · exact EditListElem.noConfusion heq
          · exact ⟨t, hmem⟩
        · intro wc' h'
          exact hok wc' (List.mem_cons_of_mem _ h')
      simp [serialiseWelcomeChannels, hq, hrest]

/-- C4: (amended) `edit` called with a `welcome_channels` list containing a
non-`WelcomeChannel` element raises `InvalidArgument`, issues zero network
calls and leaves the screen unchanged — provided every genuine entry in
the list has a present channel reference.  Without that proviso an earlier
entry's serialisation can raise `AttributeError` first (see the
counterexample), since the loop serialises each entry before inspecting
later elements. -/
theorem edit_invalid_list_rejected_amended (ws : WelcomeScreen) (http : Http)
    (d : Option (Option String)) (en : Option (Option Bool)) (ex : List String)
    (lst : List EditListElem)
    (hbad : ∃ t, EditListElem.notEntry t ∈ lst)
    (hok : ∀ wc, EditListElem.entry wc ∈ lst → (wc.channel).isSome = true) :
    ws.edit { description := d, welcome_channels := some (some lst),
              enabled := en, extra := ex } http
      = (ws, some (EditError.py PyError.invalidArgument), []) := by
  have hs := serialiseWelcomeChannels_invalid lst hbad hok
  simp [WelcomeScreen.edit, hs]

theorem edit_invalid_list_rejected_amended_witness :
    WelcomeScreen.edit ws0
      { welcome_channels := some (some [EditListElem.notEntry 7]) } httpFail
      = (ws0, some (EditError.py PyError.invalidArgument), []) :=
  edit_invalid_list_rejected_amended ws0 httpFail none none [] [EditListElem.notEntry 7]
    ⟨7, List.mem_singleton_self _⟩
    (fun _ h => EditListElem.noConfusion (List.mem_singleton.mp h))

/-- C4 counterexample: the list `[WelcomeChannel(channel=None, ...), 42]`
contains a non-`WelcomeChannel` element, yet `edit` raises
`AttributeError` — from serialising the first, channel-less entry — rather
than the invalid-argument error. -/
theorem edit_invalid_list_attribute_error :
    WelcomeScreen.edit ws0
      { welcome_channels := some (some
          [EditListElem.entry { channel := none, description := "d", emoji := EmojiValue.noEmoji },
           EditListElem.notEntry 0]) } httpFail
      = (ws0, some (EditError.py PyError.attributeError), []) ∧
    PyError.attributeError ≠ PyError.invalidArgument :=
  ⟨rfl, by decide⟩

theorem sendPhase_spec (ws : WelcomeScreen) (kwargs : EditKwargs)
    (ser : Option (List WelcomeScreenChannelPayload)) (http : Http)
    (ws' : WelcomeScreen) (err : Option EditError) (calls : List EditRequest)
    (h : ws.sendPhase kwargs ser http = (ws', err, calls)) :
    (∀ te, err = some (EditError.transport te) →
      ws' = ws ∧ ∃ req, calls = [req] ∧ http ws._guild.id req = Except.error te) ∧
    (∀ req data, calls = [req] → http ws._guild.id req = Except.ok data →
      ws' = (ws._store data).1) ∧
    (calls = [] → ws' = ws) := by
  unfold WelcomeScreen.sendPhase at h
  split at h
  · injection h with h1 h2
    injection h2 with h2 h3
    subst h1; subst h2; subst h3
    exact ⟨fun te hte => by simp at hte, fun req data hc _ => by simp at hc, fun _ => rfl⟩
  · split at h
    · rename_i te heq
      injection h with h1 h2
      injection h2 with h2 h3
      subst h1; subst h2; subst h3
      refine ⟨?_, ?_, ?_⟩
      · intro te' hte
        have hte2 : te = te' := EditError.transport.inj (Option.some.inj hte)
        subst hte2
        exact ⟨rfl, buildRequest kwargs ser, rfl, heq⟩
      · intro req data hc hr
        have hreq : buildRequest kwargs ser = req := by simpa using hc
        subst hreq
        rw [heq] at hr
        exact Except.noConfusion hr
      · intro hc
        exact absurd hc (by simp)
    · rename_i data heq
      split at h
      · rename_i ws2 heq2
        injection h with h1 h2
        injection h2 with h2 h3
        subst h1; subst h2; subst h3
        refine ⟨?_, ?_, ?_⟩
        · intro te hte
          exact absurd hte (by simp)
        · intro req data' hc hr
          have hreq : buildRequest kwargs ser = req := by simpa using hc
          subst hreq
          rw [heq] at hr
          have hd : data = data' := Except.ok.inj hr
          subst hd
          rw [heq2]
        · intro hc
          exact absurd hc (by simp)
      · rename_i ws2 e heq2
        injection h with h1 h2
        injection h2 with h2 h3
        subst h1; subst h2; subst h3
        refine ⟨?_, ?_, ?_⟩
        · intro te hte
          have := Option.some.inj hte
          exact EditError.noConfusion this
        · intro req data' hc hr
          have hreq : buildRequest kwargs ser = req := by simpa using hc
          subst hreq
          rw [heq] at hr
          have hd : data = data' := Except.ok.inj hr
          subst hd
          rw [heq2]
        · intro hc
          exact absurd hc (by simp)

/-- C5: atomicity of `edit`.  Whenever the outcome is a transport error,
that error is exactly what the transport returned for the single issued
request and the screen's state is what it was before the call; whenever a
request was issued and the transport succeeded, the final state is exactly
what `_store` (re-hydration) produces from the response payload; when no
request was issued the state is untouched. -/
theorem edit_atomicity (ws : WelcomeScreen) (kwargs : EditKwargs) (http : Http)
    (ws' : WelcomeScreen) (err : Option EditError) (calls : List EditRequest)
    (h : ws.edit kwargs http = (ws', err, calls)) :
    (∀ te, err = some (EditError.transport te) →
      ws' = ws ∧ ∃ req, calls = [req] ∧ http ws._guild.id req = Except.error te) ∧
    (∀ req data, calls = [req] → http ws._guild.id req = Except.ok data →
      ws' = (ws._store data).1) ∧
    (calls = [] → ws' = ws) := by
  cases hwc : kwargs.welcome_channels with
  | none =>
    simp only [WelcomeScreen.edit, hwc] at h
    exact sendPhase_spec ws kwargs none http ws' err calls h
  | some vo =>
    cases vo with
    | none =>
      simp only [WelcomeScreen.edit, hwc] at h
      injection h with h1 h2
      injection h2 with h2 h3
      subst h1; subst h2; subst h3
      refine ⟨?_, ?_, ?_⟩
      · intro te hte
        have := Option.some.inj hte
        exact EditError.noConfusion this
      · intro req data hc hr
        exact absurd hc (by simp)
      · intro _
        rfl
    | some lst =>
      simp only [WelcomeScreen.edit, hwc] at h
      cases hs : serialiseWelcomeChannels lst with
      | error e =>
        simp only [hs] at h
        injection h with h1 h2
        injection h2 with h2 h3
        subst h1; subst h2; subst h3
        refine ⟨?_, ?_, ?_⟩
        · intro te hte
          have := Option.some.inj hte
          exact EditError.noConfusion this
        · intro req data hc hr
          exact absurd hc (by simp)
        · intro _
          rfl
      | ok ser =>
        simp only [hs] at h
        exact sendPhase_spec ws kwargs (some ser) http ws' err calls h

theorem edit_atomicity_witness :
    ws0 = ws0 ∧ ∃ req, [req0] = [req] ∧ httpFail ws0._guild.id req
      = Except.error TransportError.httpException :=
  (edit_atomicity ws0 { description := some (some "x") } httpFail ws0
    (some (EditError.transport TransportError.httpException)) [req0] rfl).1
    TransportError.httpException rfl

/-- C1: (amended) Round-trip of a welcome-channel entry.  For a payload
whose `channel_id` resolves in the guild context, whose `emoji_name` key is
present (its value may be null) and whose non-null `emoji_id`, when
carried, is a nonzero id owned by the guild's emoji registry:
`to_dict` after `_from_dict` reproduces the payload's `channel_id` and
`description`, emits the id+name emoji form (same id) exactly when the
payload carried a non-null `emoji_id`, and the name-only form (null
`emoji_id`, `emoji_name` preserved) otherwise.  A payload without the
`emoji_name` key — allowed by the declared wire shape — instead makes
hydration raise `KeyError` (see the counterexample). -/
theorem welcomeChannel_roundtrip_amended
    (p : WelcomeScreenChannelPayload) (guild : Guild) (cid : Nat) (en : Option String)
    (hch : p.channel_id = some (some cid))
    (hres : (guild.get_channel (some cid)).isSome = true)
    (hname : p.emoji_name = some en)
    (hcustom : ∀ eid, p.emoji_id = some (some eid) →
      eid ≠ 0 ∧ ∃ e ∈ guild.emojis, e.id = eid) :
    ∃ wc q, WelcomeChannel._from_dict p guild = Except.ok wc ∧
      wc.to_dict = Except.ok q ∧
      q.channel_id = p.channel_id ∧ q.description = p.description ∧
      ((∃ eid, p.emoji_id = some (some eid)) →
        q.emoji_id = p.emoji_id ∧ ∃ s, q.emoji_name = some (some s)) ∧
      ((¬ ∃ eid, p.emoji_id = some (some eid)) →
        q.emoji_id = some none ∧ q.emoji_name = p.emoji_name) := by
  obtain ⟨ch, hcheq⟩ := Option.isSome_iff_exists.mp hres
  have hchid : ch.id = cid := get_channel_id guild cid ch hcheq
  cases p with
  | mk pc pd pe pn =>
    have h1 : pc = some (some cid) := hch
    have h2 : pn = some en := hname
    subst h1; subst h2
    cases pe with
    | none =>
      cases en with
      | none =>
        refine ⟨⟨some ch, pd, EmojiValue.noEmoji⟩,
          ⟨some (some ch.id), pd, some none, some none⟩, ?_, rfl, ?_, rfl, ?_, ?_⟩
        · simp [WelcomeChannel._from_dict, _get_as_snowflake, hcheq, emojiFromName]
        · simp [hchid]
        · rintro ⟨eid, heid⟩
          exact Option.noConfusion heid
        · intro _
          exact ⟨rfl, rfl⟩
      | some s =>
        refine ⟨⟨some ch, pd, EmojiValue.unicode s⟩,
          ⟨some (some ch.id), pd, some none, some (some s)⟩, ?_, rfl, ?_, rfl, ?_, ?_⟩
        · simp [WelcomeChannel._from_dict, _get_as_snowflake, hcheq, emojiFromName]
        · simp [hchid]
        · rintro ⟨eid, heid⟩
          exact Option.noConfusion heid
        · intro _
          exact ⟨rfl, rfl⟩
    | some peo =>
      cases peo with
      | none =>
        cases en with
        | none =>
          refine ⟨⟨some ch, pd, EmojiValue.noEmoji⟩,
            ⟨some (some ch.id), pd, some none, some none⟩, ?_, rfl, ?_, rfl, ?_, ?_⟩
          · simp [WelcomeChannel._from_dict, _get_as_snowflake, hcheq, emojiFromName]
          · simp [hchid]
          · rintro ⟨eid, heid⟩
            simp at heid
          · intro _
            exact ⟨rfl, rfl⟩
        | some s =>
          refine ⟨⟨some ch, pd, EmojiValue.unicode s⟩,
            ⟨some (some ch.id), pd, some none, some (some s)⟩, ?_, rfl, ?_, rfl, ?_, ?_⟩
          · simp [WelcomeChannel._from_dict, _get_as_snowflake, hcheq, emojiFromName]
          · simp [hchid]
          · rintro ⟨eid, heid⟩
            simp at heid
          · intro _
            exact ⟨rfl, rfl⟩
      | some eid =>
        obtain ⟨hz, hmem⟩ := hcustom eid rfl
        obtain ⟨e, hu, heid⟩ := utils_get_of_mem guild.emojis eid hmem
        have hzb : (eid == 0) = false := by simpa using hz
        refine ⟨⟨some ch, pd, EmojiValue.custom e⟩,
          ⟨some (some ch.id), pd, some (some e.id), some (some e.name)⟩, ?_, rfl, ?_, rfl, ?_, ?_⟩
        · simp [WelcomeChannel._from_dict, _get_as_snowflake, hcheq, hzb, hu]
        · simp [hchid]
        · intro _
          exact ⟨by simp [heid], ⟨e.name, rfl⟩⟩
        · intro hno
          exact absurd ⟨eid, rfl⟩ hno

theorem welcomeChannel_roundtrip_amended_witness :
    ∃ wc q, WelcomeChannel._from_dict
        { channel_id := some (some 1), description := "d",
          emoji_id := some (some 5), emoji_name := some (some "x") } g0
        = Except.ok wc ∧
      wc.to_dict = Except.ok q ∧
      q.channel_id = some (some 1) ∧ q.description = "d" ∧
      ((∃ eid, (some (some 5) : Option (Option Nat)) = some (some eid)) →
        q.emoji_id = some (some 5) ∧ ∃ s, q.emoji_name = some (some s)) ∧
      ((¬ ∃ eid, (some (some 5) : Option (Option Nat)) = some (some eid)) →
        q.emoji_id = some none ∧ q.emoji_name = some (some "x")) :=
  welcomeChannel_roundtrip_amended _ g0 1 (some "x") rfl rfl rfl
    (by
      intro eid h
      have h5 : (5 : Nat) = eid := Option.some.inj (Option.some.inj h)
      subst h5
      exact ⟨by decide, by decide⟩)

/-- C1 counterexample: a payload with a resolvable channel and no emoji at
all — both emoji keys absent, which the declared wire shape allows — cannot
be round-tripped: `_from_dict` raises `KeyError`, so no serialised payload
is produced at all. -/
theorem roundtrip_fails_on_absent_emoji_name :
    (g0.get_channel (some 1)).isSome = true ∧
    WelcomeChannel._from_dict
      { channel_id := some (some 1), description := "d",
        emoji_id := none, emoji_name := none } g0
      = Except.error PyError.keyError :=
  ⟨rfl, rfl⟩
